import Mathlib

/-!
# EchoMint market-mood analysis engine: a verification development

A shallow embedding of the EchoMint Arkiv indexer core
(`arkiv-indexer/src`): the mood decision engine, the change detector,
the sentiment fusion, the bounded price/sentiment histories with their
volatility/momentum computations, the Hyperbridge dispatch client, and
the orchestrator cycle `runAnalysis`.

JavaScript numbers are modelled as exact rationals (`ℚ`) in the
decision/bookkeeping parts and as reals (`ℝ`) where a square root is
taken (volatility, sentiment confidence).  JavaScript `Map`s are
modelled as insertion-ordered association lists with the `Map.set` /
`Map.get` semantics made explicit (`setKey` / `getKey`).
-/

namespace EchoMint

/-- Mood states matching the NFT contract
(`analyzers/moodCalculator.ts`, enum `MoodState`). -/
inductive MoodState : Type
  | Bullish
  | Bearish
  | Neutral
  | Volatile
  | PositiveSentiment
  | NegativeSentiment
  deriving DecidableEq, Repr

/-- Market data for a specific asset (`indexers/marketDataIndexer.ts`,
interface `MarketData`). -/
structure MarketData : Type where
  symbol : String
  price : ℚ
  volume24h : ℚ
  priceChange24h : ℚ
  priceChangePercent24h : ℚ
  high24h : ℚ
  low24h : ℚ
  timestamp : ℚ
  deriving DecidableEq, Repr

/-- The three fused sentiment signals (`analyzers/sentimentAnalyzer.ts`,
field `signals` of `SentimentData`). -/
structure SentimentSignals : Type where
  social : ℚ
  onChain : ℚ
  technical : ℚ
  deriving DecidableEq, Repr

/-- Sentiment data for an asset (`analyzers/sentimentAnalyzer.ts`,
interface `SentimentData`). -/
structure SentimentData : Type where
  symbol : String
  score : ℚ
  confidence : ℚ
  signals : SentimentSignals
  timestamp : ℚ
  deriving DecidableEq, Repr

/-- The `factors` record inside a `MoodAnalysis`
(`analyzers/moodCalculator.ts`). -/
structure MoodFactors : Type where
  priceChange : ℚ
  volatility : ℚ
  sentiment : ℚ
  volume : ℚ
  deriving DecidableEq, Repr

/-- Mood analysis result (`analyzers/moodCalculator.ts`, interface
`MoodAnalysis`). -/
structure MoodAnalysis : Type where
  symbol : String
  mood : MoodState
  confidence : ℚ
  factors : MoodFactors
  timestamp : ℚ
  deriving DecidableEq, Repr

namespace MoodCalculator

/-- `MoodCalculator.calculateMood` (`analyzers/moodCalculator.ts`,
lines 338–403).  The source reads `Date.now()` for the timestamp; the
embedding takes the clock value as the explicit argument `now`. -/
def calculateMood (marketData : MarketData) (sentimentData : SentimentData)
    (volatility : ℚ) (now : ℚ) : MoodAnalysis :=
  let priceChangePercent := marketData.priceChangePercent24h
  let sentimentScore := sentimentData.score
  let mc : MoodState × ℚ :=
    -- Priority 1: Check for high volatility (overrides other moods)
    if volatility > 50 then
      (MoodState.Volatile, min 1 (volatility / 100))
    -- Priority 2: Strong sentiment regardless of price
    else if sentimentScore > 0.6 ∧ sentimentData.confidence > 0.7 then
      (MoodState.PositiveSentiment, sentimentData.confidence)
    else if sentimentScore < -0.6 ∧ sentimentData.confidence > 0.7 then
      (MoodState.NegativeSentiment, sentimentData.confidence)
    -- Priority 3: Price-driven moods
    else if priceChangePercent > 5 ∧ sentimentScore > 0 then
      (MoodState.Bullish, min 1 (priceChangePercent / 20))
    else if priceChangePercent < -5 ∧ sentimentScore < 0 then
      (MoodState.Bearish, min 1 (|priceChangePercent| / 20))
    -- Priority 4: Mixed signals - check sentiment to break tie
    else if priceChangePercent > 5 ∧ sentimentScore ≤ 0 then
      (if volatility > 30 then MoodState.Volatile else MoodState.Neutral, 0.6)
    else if priceChangePercent < -5 ∧ sentimentScore ≥ 0 then
      (if volatility > 30 then MoodState.Volatile else MoodState.Neutral, 0.6)
    -- Default: Neutral
    else
      (MoodState.Neutral, 0.7)
  { symbol := marketData.symbol
    mood := mc.1
    confidence := mc.2
    factors :=
      { priceChange := priceChangePercent
        volatility := volatility
        sentiment := sentimentScore
        volume := marketData.volume24h }
    timestamp := now }

/-- `MoodCalculator.shouldUpdateMood` (`analyzers/moodCalculator.ts`,
lines 408–416). -/
def shouldUpdateMood (previousMood newMood : MoodState) (newConfidence : ℚ) : Bool :=
  -- Always update if mood changed and confidence is high
  if previousMood ≠ newMood ∧ newConfidence > 0.6 then
    true
  -- Don't update if same mood or low confidence
  else
    false

end MoodCalculator

/-- The change-detector gate as applied at the call site
(`index.ts`, lines 139–142): `!previousMood ||
moodCalculator.shouldUpdateMood(previousMood, mood, confidence)`.
This is the spec's `shouldUpdate(previous: MoodState|unset, candidate,
confidence)`. -/
def shouldUpdate (previous : Option MoodState) (candidate : MoodState)
    (confidence : ℚ) : Bool :=
  match previous with
  | none => true
  | some p => MoodCalculator.shouldUpdateMood p candidate confidence

/-- Spec §4.3, written from the spec's words: the priority-ordered
decision list `decide(priceChangePercent, sentimentScore,
sentimentConfidence, volatilityPct) -> (MoodState, confidence)` with
the eight numbered rules. -/
def decideSpec (priceChange sentimentScore sentimentConfidence volatility : ℚ) :
    MoodState × ℚ :=
  if volatility > 50 then
    (MoodState.Volatile, min 1 (volatility / 100))
  else if sentimentScore > 0.6 ∧ sentimentConfidence > 0.7 then
    (MoodState.PositiveSentiment, sentimentConfidence)
  else if sentimentScore < -0.6 ∧ sentimentConfidence > 0.7 then
    (MoodState.NegativeSentiment, sentimentConfidence)
  else if priceChange > 5 ∧ sentimentScore > 0 then
    (MoodState.Bullish, min 1 (priceChange / 20))
  else if priceChange < -5 ∧ sentimentScore < 0 then
    (MoodState.Bearish, min 1 (|priceChange| / 20))
  else if priceChange > 5 ∧ sentimentScore ≤ 0 then
    (if volatility > 30 then MoodState.Volatile else MoodState.Neutral, 0.6)
  else if priceChange < -5 ∧ sentimentScore ≥ 0 then
    (if volatility > 30 then MoodState.Volatile else MoodState.Neutral, 0.6)
  else
    (MoodState.Neutral, 0.7)

end EchoMint

namespace EchoMint

open MoodCalculator (calculateMood shouldUpdateMood)

/-- **C1.** The mood decision implemented by `calculateMood` agrees,
for every input, with the spec §4.3 decision list `decideSpec`: the
returned mood and confidence are those of the first matching rule of
the eight, evaluated in priority order with the stated thresholds. -/
theorem calculateMood_eq_decideSpec
    (marketData : MarketData) (sentimentData : SentimentData)
    (volatility now : ℚ) :
    ((calculateMood marketData sentimentData volatility now).mood,
      (calculateMood marketData sentimentData volatility now).confidence) =
      decideSpec marketData.priceChangePercent24h sentimentData.score
        sentimentData.confidence volatility := by
  simp only [MoodCalculator.calculateMood, decideSpec]

/-- **C5.** Rule-1 dominance: whatever the market data and sentiment
data, volatility `75` forces mood `Volatile` with confidence `0.75`. -/
theorem calculateMood_volatility75
    (marketData : MarketData) (sentimentData : SentimentData) (now : ℚ) :
    (calculateMood marketData sentimentData 75 now).mood = MoodState.Volatile ∧
      (calculateMood marketData sentimentData 75 now).confidence = 0.75 := by
  simp only [MoodCalculator.calculateMood]
  norm_num

/-- **C3.** `shouldUpdate previous candidate confidence` is true iff
`previous` is unset, or the candidate differs from the previous mood
and the confidence exceeds `0.6`; in particular it is false whenever
the candidate equals the set previous mood (any confidence), and false
whenever `confidence ≤ 0.6` (any pair of distinct moods). -/
theorem shouldUpdate_spec :
    (∀ (previous : Option MoodState) (candidate : MoodState) (confidence : ℚ),
        shouldUpdate previous candidate confidence = true ↔
          previous = none ∨ (previous ≠ some candidate ∧ confidence > 0.6)) ∧
    (∀ (p : MoodState) (confidence : ℚ),
        shouldUpdate (some p) p confidence = false) ∧
    (∀ (p candidate : MoodState) (confidence : ℚ),
        p ≠ candidate → confidence ≤ 0.6 →
          shouldUpdate (some p) candidate confidence = false) := by
  refine ⟨?_, ?_, ?_⟩
  · intro previous candidate confidence
    cases previous with
    | none => simp [shouldUpdate]
    | some p =>
      simp only [shouldUpdate, MoodCalculator.shouldUpdateMood]
      split_ifs with hc
      · exact iff_of_true rfl (Or.inr ⟨by simpa using hc.1, hc.2⟩)
      · refine iff_of_false (by simp) ?_
        rintro (h | ⟨hne, hgt⟩)
        · cases h
        · exact hc ⟨fun he => hne (by rw [he]), hgt⟩
  · intro p confidence
    simp [shouldUpdate, MoodCalculator.shouldUpdateMood]
  · intro p candidate confidence hne hc
    simp only [shouldUpdate, MoodCalculator.shouldUpdateMood]
    exact if_neg fun h => absurd hc (not_le.mpr h.2)

/-- Witness for **C3**: the theorem applied at a concrete set previous
mood, a distinct candidate and confidence `0.5 ≤ 0.6`. -/
theorem shouldUpdate_spec_witness :
    MoodState.Bullish ≠ MoodState.Bearish ∧ (0.5 : ℚ) ≤ 0.6 ∧
      shouldUpdate (some MoodState.Bullish) MoodState.Bearish 0.5 = false :=
  ⟨by decide, by norm_num,
    shouldUpdate_spec.2.2 MoodState.Bullish MoodState.Bearish 0.5
      (by decide) (by norm_num)⟩

end EchoMint

namespace EchoMint

namespace SentimentAnalyzer

/-- `SentimentAnalyzer.analyzeTechnicalIndicators`
(`analyzers/sentimentAnalyzer.ts`, lines 192–217): banded scoring of
the 24h price change, amplified by 1.2 when volume is positive, then
clamped to [-1, 1]. -/
def analyzeTechnicalIndicators (marketData : MarketData) : ℚ :=
  -- Analyze price action and volume
  let priceChangePercent :=
    marketData.priceChange24h / (marketData.price - marketData.priceChange24h) * 100
  -- Strong price movements
  let technicalScore : ℚ :=
    if priceChangePercent > 10 then 0.5
    else if priceChangePercent > 5 then 0.3
    else if priceChangePercent > 0 then 0.1
    else if priceChangePercent < -10 then -0.5
    else if priceChangePercent < -5 then -0.3
    else if priceChangePercent < 0 then -0.1
    else 0
  -- Volume considerations (high volume confirms sentiment)
  let technicalScore :=
    if marketData.volume24h > 0 then technicalScore * 1.2 else technicalScore
  max (-1) (min 1 technicalScore)

/-- The combined score computed by `SentimentAnalyzer.analyzeSentiment`
(`analyzers/sentimentAnalyzer.ts`, lines 55–64): the three signals
weighted by `{social: 0.3, onChain: 0.4, technical: 0.3}`. -/
def combinedScore
    (socialSentiment onChainSentiment technicalSentiment : ℚ) : ℚ :=
  socialSentiment * 0.3 + onChainSentiment * 0.4 + technicalSentiment * 0.3

/-- The variance of the three signals as computed by `analyzeSentiment`
(lines 67–69): fold-based average, then fold-based mean square
deviation, both divided by the list length. -/
def signalVariance
    (socialSentiment onChainSentiment technicalSentiment : ℚ) : ℚ :=
  let signals := [socialSentiment, onChainSentiment, technicalSentiment]
  let avgSignal := signals.foldl (fun sum val => sum + val) 0 / (signals.length : ℚ)
  signals.foldl (fun sum val => sum + (val - avgSignal) ^ 2) 0 / (signals.length : ℚ)

/-- The raw confidence of `analyzeSentiment` (line 70):
`1 - sqrt(variance)` — lower variance = higher confidence. -/
noncomputable def confidenceRaw
    (socialSentiment onChainSentiment technicalSentiment : ℚ) : ℝ :=
  1 - Real.sqrt
    ((signalVariance socialSentiment onChainSentiment technicalSentiment : ℚ) : ℝ)

/-- The `confidence` field of the produced `SentimentData` (line 75):
the raw confidence clamped by `Math.max(0, Math.min(1, ·))`. -/
noncomputable def sampleConfidence
    (socialSentiment onChainSentiment technicalSentiment : ℚ) : ℝ :=
  max 0 (min 1 (confidenceRaw socialSentiment onChainSentiment technicalSentiment))

end SentimentAnalyzer

/-- Spec §4.2, written from the spec's words:
`combined = 0.3*social + 0.4*onChain + 0.3*technical`. -/
def combinedSpec (social onChain technical : ℚ) : ℚ :=
  0.3 * social + 0.4 * onChain + 0.3 * technical

/-- Spec §4.2: the population variance of the multiset
`{social, onChain, technical}`, written directly as the mean squared
deviation from the mean of the three values. -/
def varianceSpec (social onChain technical : ℚ) : ℚ :=
  let mu := (social + onChain + technical) / 3
  ((social - mu) ^ 2 + (onChain - mu) ^ 2 + (technical - mu) ^ 2) / 3

/-- Spec §4.2:
`confidence = clamp(1 - sqrt(variance({social, onChain, technical})), 0, 1)`. -/
noncomputable def confidenceSpec (social onChain technical : ℚ) : ℝ :=
  max 0 (min 1 (1 - Real.sqrt ((varianceSpec social onChain technical : ℚ) : ℝ)))

/-- **C6.** Sentiment fusion computes the combined score as exactly
`0.3*social + 0.4*onChain + 0.3*technical`, and the stored confidence
as `1 - sqrt (population variance of the three signals)` clamped to
`[0,1]` — for every triple of input signals. -/
theorem analyzeSentiment_eq_spec (social onChain technical : ℚ) :
    SentimentAnalyzer.combinedScore social onChain technical =
        combinedSpec social onChain technical ∧
      SentimentAnalyzer.sampleConfidence social onChain technical =
        confidenceSpec social onChain technical := by
  constructor
  · simp only [SentimentAnalyzer.combinedScore, combinedSpec]
    ring
  · have hv : SentimentAnalyzer.signalVariance social onChain technical =
        varianceSpec social onChain technical := by
      simp only [SentimentAnalyzer.signalVariance, varianceSpec, List.foldl,
        List.length_cons, List.length_nil]
      push_cast
      ring
    simp only [SentimentAnalyzer.sampleConfidence,
      SentimentAnalyzer.confidenceRaw, confidenceSpec, hv]

/-- **C7.** Every `SentimentData` produced by the sentiment fusion has
its score in `[-1, 1]` and its confidence in `[0, 1]`, provided the
social and on-chain input signals lie in `[-1, 1]` (the technical
signal is clamped internally). -/
theorem sentimentSample_ranges (social onChain : ℚ) (marketData : MarketData)
    (h1 : -1 ≤ social) (h2 : social ≤ 1)
    (h3 : -1 ≤ onChain) (h4 : onChain ≤ 1) :
    (-1 ≤ SentimentAnalyzer.combinedScore social onChain
            (SentimentAnalyzer.analyzeTechnicalIndicators marketData) ∧
        SentimentAnalyzer.combinedScore social onChain
            (SentimentAnalyzer.analyzeTechnicalIndicators marketData) ≤ 1) ∧
      (0 ≤ SentimentAnalyzer.sampleConfidence social onChain
            (SentimentAnalyzer.analyzeTechnicalIndicators marketData) ∧
        SentimentAnalyzer.sampleConfidence social onChain
            (SentimentAnalyzer.analyzeTechnicalIndicators marketData) ≤ 1) := by
  have htech1 : -1 ≤ SentimentAnalyzer.analyzeTechnicalIndicators marketData :=
    le_max_left _ _
  have htech2 : SentimentAnalyzer.analyzeTechnicalIndicators marketData ≤ 1 := by
    unfold SentimentAnalyzer.analyzeTechnicalIndicators
    exact max_le (by norm_num) (min_le_left _ _)
  refine ⟨⟨?_, ?_⟩, ?_, ?_⟩
  · simp only [SentimentAnalyzer.combinedScore]
    linarith
  · simp only [SentimentAnalyzer.combinedScore]
    linarith
  · exact le_max_left _ _
  · exact max_le zero_le_one (min_le_left _ _)

/-- Witness for **C7**: the theorem applied with both signals `0` and
an all-zero market snapshot. -/
theorem sentimentSample_ranges_witness :
    ((-1 : ℚ) ≤ 0 ∧ (0 : ℚ) ≤ 1) ∧
      (-1 ≤ SentimentAnalyzer.combinedScore 0 0
            (SentimentAnalyzer.analyzeTechnicalIndicators
              ⟨"SOL", 0, 0, 0, 0, 0, 0, 0⟩) ∧
        SentimentAnalyzer.combinedScore 0 0
            (SentimentAnalyzer.analyzeTechnicalIndicators
              ⟨"SOL", 0, 0, 0, 0, 0, 0, 0⟩) ≤ 1) ∧
      (0 ≤ SentimentAnalyzer.sampleConfidence 0 0
            (SentimentAnalyzer.analyzeTechnicalIndicators
              ⟨"SOL", 0, 0, 0, 0, 0, 0, 0⟩) ∧
        SentimentAnalyzer.sampleConfidence 0 0
            (SentimentAnalyzer.analyzeTechnicalIndicators
              ⟨"SOL", 0, 0, 0, 0, 0, 0, 0⟩) ≤ 1) := by
  refine ⟨⟨by norm_num, by norm_num⟩, ?_⟩
  have h := sentimentSample_ranges 0 0 ⟨"SOL", 0, 0, 0, 0, 0, 0, 0⟩
    (by norm_num) (by norm_num) (by norm_num) (by norm_num)
  exact ⟨h.1, h.2⟩

end EchoMint

namespace EchoMint

/-- The bounded-buffer append shared by `MarketDataIndexer.addPricePoint`
and `SentimentAnalyzer.addToHistory`: push the new element at the end,
then `shift()` (drop the oldest element, i.e. the list head) when the
length exceeds the limit. -/
def pushBounded {α : Type} (limit : ℕ) (history : List α) (x : α) : List α :=
  let history1 := history ++ [x]
  if history1.length > limit then history1.tail else history1

theorem pushBounded_length_le {α : Type} (limit : ℕ) (history : List α) (x : α)
    (h : history.length ≤ limit) :
    (pushBounded limit history x).length ≤ limit := by
  simp only [pushBounded]
  split_ifs with hgt
  · simpa using h
  · simp only [List.length_append, List.length_singleton] at hgt ⊢
    omega

theorem foldl_pushBounded_length_le {α : Type} (limit : ℕ) (xs : List α) :
    ∀ history : List α, history.length ≤ limit →
      (xs.foldl (pushBounded limit) history).length ≤ limit := by
  induction xs with
  | nil => intro history h; simpa using h
  | cons x xs ih =>
    intro history h
    exact ih (pushBounded limit history x) (pushBounded_length_le limit history x h)

theorem foldl_pushBounded_eq_drop {α : Type} (limit : ℕ) (xs : List α) :
    ∀ history : List α, history.length ≤ limit →
      xs.foldl (pushBounded limit) history =
        (history ++ xs).drop (history.length + xs.length - limit) := by
  induction xs with
  | nil =>
    intro history h
    simp [Nat.sub_eq_zero_of_le h]
  | cons x xs ih =>
    intro history h
    rcases lt_or_eq_of_le h with hlt | heq
    · have hpush : pushBounded limit history x = history ++ [x] := by
        simp only [pushBounded, List.length_append, List.length_singleton]
        rw [if_neg (by omega)]
      rw [List.foldl_cons, hpush, ih (history ++ [x]) (by simp; omega)]
      have hidx : (history ++ [x]).length + xs.length - limit =
          history.length + (x :: xs).length - limit := by
        simp; omega
      rw [hidx, List.append_assoc, List.singleton_append]
    · have hpush : pushBounded limit history x = (history ++ [x]).drop 1 := by
        simp only [pushBounded, List.length_append, List.length_singleton]
        rw [if_pos (by omega), List.drop_one]
      have hlen : ((history ++ [x]).drop 1).length ≤ limit := by
        simp [heq]
      have ha : ((history ++ [x]).drop 1).length = history.length := by simp
      rw [List.foldl_cons, hpush, ih _ hlen]
      have h1 : (1 : ℕ) ≤ (history ++ [x]).length := by simp
      rw [← List.drop_append_of_le_length h1, List.drop_drop, ha]
      have hidx : 1 + (history.length + xs.length - limit) =
          history.length + (x :: xs).length - limit := by
        simp only [List.length_cons]
        omega
      rw [hidx, List.append_assoc, List.singleton_append]

namespace MarketDataIndexer

/-- Price point for volatility calculation
(`indexers/marketDataIndexer.ts`, interface `PricePoint`). -/
structure PricePoint : Type where
  price : ℚ
  timestamp : ℚ
  deriving DecidableEq, Repr

/-- `MarketDataIndexer.HISTORY_LIMIT`
(`indexers/marketDataIndexer.ts`, line 259): keep last 100 points. -/
def HISTORY_LIMIT : ℕ := 100

/-- `MarketDataIndexer.addPricePoint`
(`indexers/marketDataIndexer.ts`, lines 363–374): push the new point,
drop the oldest (`shift()`) when over `HISTORY_LIMIT`. -/
def addPricePoint (history : List PricePoint) (price timestamp : ℚ) :
    List PricePoint :=
  pushBounded HISTORY_LIMIT history ⟨price, timestamp⟩

/-- `MarketDataIndexer.calculateVolatility`
(`indexers/marketDataIndexer.ts`, lines 379–411).  The source reads
`Date.now()`; the embedding takes the clock value `now` (milliseconds)
as an explicit argument.  Timestamps are in milliseconds, so the
cutoff is `now - periodMinutes * 60 * 1000`. -/
noncomputable def calculateVolatility
    (history : List PricePoint) (periodMinutes now : ℚ) : ℝ :=
  if history.length < 2 then 0
  else
    let periodData :=
      history.filter (fun point => point.timestamp ≥ now - periodMinutes * 60 * 1000)
    if periodData.length < 2 then 0
    else
      let returns := (periodData.zip periodData.tail).map
        (fun pp => (pp.2.price - pp.1.price) / pp.1.price)
      let mean := returns.foldl (fun sum val => sum + val) 0 / (returns.length : ℚ)
      let variance :=
        returns.foldl (fun sum val => sum + (val - mean) ^ 2) 0 / (returns.length : ℚ)
      let stdDev := Real.sqrt ((variance : ℚ) : ℝ)
      let periodsPerYear : ℚ := (365 * 24 * 60) / periodMinutes
      let annualizedVolatility := stdDev * Real.sqrt ((periodsPerYear : ℚ) : ℝ)
      annualizedVolatility * 100

/-- `MarketDataIndexer.calculateMomentum`
(`indexers/marketDataIndexer.ts`, lines 430–448): percentage change
from the first to the last sample inside the window; 0 when fewer than
2 samples. -/
def calculateMomentum (history : List PricePoint) (periodMinutes now : ℚ) : ℚ :=
  if history.length < 2 then 0
  else
    let periodData :=
      history.filter (fun point => point.timestamp ≥ now - periodMinutes * 60 * 1000)
    if periodData.length < 2 then 0
    else
      let firstPrice := (periodData.getD 0 ⟨0, 0⟩).price
      let lastPrice := (periodData.getD (periodData.length - 1) ⟨0, 0⟩).price
      (lastPrice - firstPrice) / firstPrice * 100

end MarketDataIndexer

namespace SentimentAnalyzer

/-- `SentimentAnalyzer.HISTORY_LIMIT`
(`analyzers/sentimentAnalyzer.ts`, line 34): keep last 50 samples. -/
def HISTORY_LIMIT : ℕ := 50

/-- `SentimentAnalyzer.addToHistory`, per-symbol buffer operation
(`analyzers/sentimentAnalyzer.ts`, lines 222–231): push, then
`shift()` when over `HISTORY_LIMIT`. -/
def addToHistory (history : List SentimentData) (data : SentimentData) :
    List SentimentData :=
  pushBounded HISTORY_LIMIT history data

end SentimentAnalyzer

/-- Spec §4.1, written from the spec's words:
`computeVolatility(symbol, windowMinutes)` selects the samples with
`timestamp >= now - windowMinutes`; with fewer than 2 such samples it
is 0; otherwise it is the standard deviation of the period-over-period
returns `(pᵢ - pᵢ₋₁)/pᵢ₋₁`, annualized by `sqrt((365*24*60)/windowMinutes)`
and expressed as a percentage. -/
noncomputable def computeVolatility
    (history : List MarketDataIndexer.PricePoint) (windowMinutes now : ℚ) : ℝ :=
  let samples :=
    history.filter (fun point => point.timestamp ≥ now - windowMinutes * 60 * 1000)
  if samples.length < 2 then 0
  else
    let returns := (samples.zip samples.tail).map
      (fun pp => (pp.2.price - pp.1.price) / pp.1.price)
    let mean := returns.sum / (returns.length : ℚ)
    let variance := ((returns.map (fun r => (r - mean) ^ 2)).sum) / (returns.length : ℚ)
    Real.sqrt ((variance : ℚ) : ℝ) *
      Real.sqrt ((((365 * 24 * 60) / windowMinutes : ℚ)) : ℝ) * 100

theorem foldl_add_eq_sum (l : List ℚ) (a : ℚ) :
    l.foldl (fun sum val => sum + val) a = a + l.sum := by
  induction l generalizing a with
  | nil => simp
  | cons x xs ih => simp [ih, add_assoc]

theorem foldl_add_sq_eq_sum (m : ℚ) (l : List ℚ) (a : ℚ) :
    l.foldl (fun sum val => sum + (val - m) ^ 2) a =
      a + (l.map (fun val => (val - m) ^ 2)).sum := by
  induction l generalizing a with
  | nil => simp
  | cons x xs ih => simp [ih, add_assoc]

/-- **C4.** For every history, window and clock value,
`calculateVolatility` agrees with the spec §4.1 `computeVolatility`:
select the samples inside the window, return 0 with fewer than 2 of
them, and otherwise return the standard deviation of the
period-over-period returns annualized by `sqrt((365*24*60)/window)`
and expressed as a percentage. -/
theorem calculateVolatility_eq_spec
    (history : List MarketDataIndexer.PricePoint) (periodMinutes now : ℚ) :
    MarketDataIndexer.calculateVolatility history periodMinutes now =
      computeVolatility history periodMinutes now := by
  simp only [MarketDataIndexer.calculateVolatility, computeVolatility]
  by_cases h1 : history.length < 2
  · have h2 : (history.filter
        (fun point => point.timestamp ≥ now - periodMinutes * 60 * 1000)).length < 2 :=
      lt_of_le_of_lt (List.length_filter_le _ _) h1
    rw [if_pos h1, if_pos h2]
  · rw [if_neg h1]
    by_cases h2 : (history.filter
        (fun point => point.timestamp ≥ now - periodMinutes * 60 * 1000)).length < 2
    · rw [if_pos h2, if_pos h2]
    · rw [if_neg h2, if_neg h2, foldl_add_eq_sum, foldl_add_sq_eq_sum]
      simp only [zero_add]

/-- **C9.** `calculateVolatility` and `calculateMomentum` both return
exactly 0 whenever fewer than 2 samples fall inside the requested time
window — for every history, window length and clock value, including
the empty and singleton histories. -/
theorem volatility_momentum_defensive_zero
    (history : List MarketDataIndexer.PricePoint) (periodMinutes now : ℚ)
    (h : (history.filter
        (fun point => point.timestamp ≥ now - periodMinutes * 60 * 1000)).length < 2) :
    MarketDataIndexer.calculateVolatility history periodMinutes now = 0 ∧
      MarketDataIndexer.calculateMomentum history periodMinutes now = 0 := by
  constructor
  · simp only [MarketDataIndexer.calculateVolatility]
    by_cases h1 : history.length < 2
    · rw [if_pos h1]
    · rw [if_neg h1, if_pos h]
  · simp only [MarketDataIndexer.calculateMomentum]
    by_cases h1 : history.length < 2
    · rw [if_pos h1]
    · rw [if_neg h1, if_pos h]

/-- Witness for **C9**: the empty history, window 60 minutes, clock 0. -/
theorem volatility_momentum_defensive_zero_witness :
    ((([] : List MarketDataIndexer.PricePoint).filter
        (fun point => point.timestamp ≥ 0 - (60 : ℚ) * 60 * 1000)).length < 2) ∧
      (MarketDataIndexer.calculateVolatility [] 60 0 = 0 ∧
        MarketDataIndexer.calculateMomentum [] 60 0 = 0) :=
  ⟨by decide, volatility_momentum_defensive_zero [] 60 0 (by decide)⟩

/-- **C8.** The per-symbol price history never exceeds its capacity of
100 entries and the per-symbol sentiment history never exceeds its
capacity of 50 entries after any sequence of record operations
starting from the empty buffer; and on overflow the oldest entry is
evicted first: after capacity+1 insertions the buffer holds exactly
the most recent capacity samples in insertion order. -/
theorem history_capacity_fifo :
    (∀ points : List MarketDataIndexer.PricePoint,
        (points.foldl
          (fun h p => MarketDataIndexer.addPricePoint h p.price p.timestamp)
          []).length ≤ 100) ∧
    (∀ ds : List SentimentData,
        (ds.foldl SentimentAnalyzer.addToHistory []).length ≤ 50) ∧
    (∀ points : List MarketDataIndexer.PricePoint, points.length = 101 →
        points.foldl
          (fun h p => MarketDataIndexer.addPricePoint h p.price p.timestamp)
          [] = points.drop 1) ∧
    (∀ ds : List SentimentData, ds.length = 51 →
        ds.foldl SentimentAnalyzer.addToHistory [] = ds.drop 1) := by
  refine ⟨?_, ?_, ?_, ?_⟩
  · intro points
    exact foldl_pushBounded_length_le MarketDataIndexer.HISTORY_LIMIT points []
      (by simp [MarketDataIndexer.HISTORY_LIMIT])
  · intro ds
    exact foldl_pushBounded_length_le SentimentAnalyzer.HISTORY_LIMIT ds []
      (by simp [SentimentAnalyzer.HISTORY_LIMIT])
  · intro points hlen
    show points.foldl (pushBounded MarketDataIndexer.HISTORY_LIMIT) [] = points.drop 1
    rw [foldl_pushBounded_eq_drop MarketDataIndexer.HISTORY_LIMIT points []
      (by simp [MarketDataIndexer.HISTORY_LIMIT])]
    simp [hlen, MarketDataIndexer.HISTORY_LIMIT]
  · intro ds hlen
    show ds.foldl (pushBounded SentimentAnalyzer.HISTORY_LIMIT) [] = ds.drop 1
    rw [foldl_pushBounded_eq_drop SentimentAnalyzer.HISTORY_LIMIT ds []
      (by simp [SentimentAnalyzer.HISTORY_LIMIT])]
    simp [hlen, SentimentAnalyzer.HISTORY_LIMIT]

/-- Witness for **C8**: the FIFO parts applied to a concrete sequence
of 101 price points and 51 sentiment samples. -/
theorem history_capacity_fifo_witness :
    ((List.replicate 101 (⟨1, 0⟩ : MarketDataIndexer.PricePoint)).length = 101 ∧
      (List.replicate 101 (⟨1, 0⟩ : MarketDataIndexer.PricePoint)).foldl
          (fun h p => MarketDataIndexer.addPricePoint h p.price p.timestamp)
          [] =
        (List.replicate 101 (⟨1, 0⟩ : MarketDataIndexer.PricePoint)).drop 1) ∧
    ((List.replicate 51 (SentimentData.mk "SOL" 0 0 ⟨0, 0, 0⟩ 0)).length = 51 ∧
      (List.replicate 51 (SentimentData.mk "SOL" 0 0 ⟨0, 0, 0⟩ 0)).foldl
          SentimentAnalyzer.addToHistory [] =
        (List.replicate 51 (SentimentData.mk "SOL" 0 0 ⟨0, 0, 0⟩ 0)).drop 1) :=
  ⟨⟨List.length_replicate 101 _,
      history_capacity_fifo.2.2.1 _ (List.length_replicate 101 _)⟩,
    ⟨List.length_replicate 51 _,
      history_capacity_fifo.2.2.2 _ (List.length_replicate 51 _)⟩⟩

end EchoMint

namespace EchoMint

/-- JavaScript `Map.get` on an insertion-ordered association list: the
value at the key, if present. -/
def getKey {κ α : Type} [DecidableEq κ] (m : List (κ × α)) (k : κ) : Option α :=
  (m.find? (fun e => decide (e.1 = k))).map Prod.snd

/-- JavaScript `Map.set` on an insertion-ordered association list:
overwrite in place when the key is present, append otherwise. -/
def setKey {κ α : Type} [DecidableEq κ] (m : List (κ × α)) (k : κ) (v : α) :
    List (κ × α) :=
  if m.any (fun e => decide (e.1 = k)) then
    m.map (fun e => if e.1 = k then (k, v) else e)
  else m ++ [(k, v)]

/-- The observable connection state of the Hyperbridge client
(`utils/hyperbridgeClient.ts`): the `isConnected` flag and whether the
`api` field is set. -/
structure HyperbridgeClient : Type where
  isConnected : Bool
  hasApi : Bool
  deriving DecidableEq, Repr

namespace HyperbridgeClient

/-- `HyperbridgeClient.isReady` (`utils/hyperbridgeClient.ts`, lines
729–731): connected and the api is set. -/
def isReady (client : HyperbridgeClient) : Bool :=
  client.isConnected && client.hasApi

/-- `HyperbridgeClient.sendMoodUpdate` (`utils/hyperbridgeClient.ts`,
lines 539–572): returns `false` when not connected or the api is
unset; otherwise the simulated Hyperbridge message (a delay plus a
log) cannot throw, and the result is `true`. -/
def sendMoodUpdate (client : HyperbridgeClient) (tokenId : ℕ)
    (moodAnalysis : MoodAnalysis) : Bool :=
  if !client.isConnected || !client.hasApi then false
  else true

/-- `HyperbridgeClient.batchSendMoodUpdates`
(`utils/hyperbridgeClient.ts`, lines 577–596): iterate the input map
in insertion order, `results.set(tokenId, success)` for each entry. -/
def batchSendMoodUpdates (client : HyperbridgeClient)
    (tokenMoodMap : List (ℕ × MoodAnalysis)) : List (ℕ × Bool) :=
  tokenMoodMap.foldl
    (fun results e => setKey results e.1 (sendMoodUpdate client e.1 e.2)) []

end HyperbridgeClient

/-- The per-cycle inputs of `EchoMintIndexer.runAnalysis`
(`index.ts`, lines 86–150): the token registry, the joined market and
sentiment fetches, the volatility map, and the clock value used for
the `Date.now()` timestamps of this cycle. -/
structure CycleInput : Type where
  tokenRegistry : List (ℕ × String)
  marketDataList : List MarketData
  sentimentDataList : List SentimentData
  volatilityMap : List (String × ℚ)
  now : ℚ
  deriving DecidableEq, Repr

/-- The body of the `for (const [tokenId, symbol] of
Object.entries(this.tokenRegistry))` loop of `runAnalysis`
(`index.ts`, lines 123–150), acting on the accumulated
`(moodUpdates, previousMoods)` pair. -/
def analysisStep (inp : CycleInput)
    (acc : List (ℕ × MoodAnalysis) × List (ℕ × MoodState))
    (entry : ℕ × String) :
    List (ℕ × MoodAnalysis) × List (ℕ × MoodState) :=
  let marketData := inp.marketDataList.find? (fun m => decide (m.symbol = entry.2))
  let sentimentData :=
    inp.sentimentDataList.find? (fun s => decide (s.symbol = entry.2))
  let volatility := (getKey inp.volatilityMap entry.2).getD 0
  match marketData, sentimentData with
  | some md, some sd =>
    let moodAnalysis := MoodCalculator.calculateMood md sd volatility inp.now
    let previousMood := getKey acc.2 entry.1
    if shouldUpdate previousMood moodAnalysis.mood moodAnalysis.confidence then
      (setKey acc.1 entry.1 moodAnalysis, setKey acc.2 entry.1 moodAnalysis.mood)
    else acc
  | _, _ => acc

/-- Steps 4–5 of `EchoMintIndexer.runAnalysis` (`index.ts`, lines
119–166): compute the mood updates (mutating `previousMoods` at
decision time), then dispatch the batch only when there are updates
and the Hyperbridge client is ready.  Returns the new
PreviousMoodTable together with the per-token dispatch results (empty
when nothing was sent, in particular in the sink-offline branch that
merely logs "mood updates queued"). -/
def runAnalysis (client : HyperbridgeClient) (inp : CycleInput)
    (previousMoods : List (ℕ × MoodState)) :
    List (ℕ × MoodState) × List (ℕ × Bool) :=
  let st := inp.tokenRegistry.foldl (analysisStep inp) ([], previousMoods)
  if st.1.length > 0 then
    if HyperbridgeClient.isReady client then
      (st.2, HyperbridgeClient.batchSendMoodUpdates client st.1)
    else (st.2, [])
  else (st.2, [])

theorem foldl_setKey_eq_append {κ α β : Type} [DecidableEq κ] (f : κ → β → α) :
    ∀ (m : List (κ × β)) (acc : List (κ × α)),
      (m.map Prod.fst).Nodup →
      (∀ k ∈ m.map Prod.fst, ∀ e ∈ acc, e.1 ≠ k) →
      m.foldl (fun results e => setKey results e.1 (f e.1 e.2)) acc =
        acc ++ m.map (fun e => (e.1, f e.1 e.2)) := by
  intro m
  induction m with
  | nil => intro acc _ _; simp
  | cons x xs ih =>
    intro acc hnodup hfresh
    have hset : setKey acc x.1 (f x.1 x.2) = acc ++ [(x.1, f x.1 x.2)] := by
      unfold setKey
      rw [if_neg]
      simp only [List.any_eq_true, decide_eq_true_eq, not_exists, not_and]
      intro e he
      exact hfresh x.1 (by simp) e he
    have hnodup' : (xs.map Prod.fst).Nodup :=
      (List.nodup_cons.mp (by simpa using hnodup)).2
    have hhead : x.1 ∉ xs.map Prod.fst :=
      (List.nodup_cons.mp (by simpa using hnodup)).1
    have hfresh' : ∀ k ∈ xs.map Prod.fst,
        ∀ e ∈ acc ++ [(x.1, f x.1 x.2)], e.1 ≠ k := by
      intro k hk e he
      rcases List.mem_append.mp he with h1 | h2
      · exact hfresh k (by simp [hk]) e h1
      · have : e = (x.1, f x.1 x.2) := by simpa using h2
        rw [this]
        intro hcontra
        exact hhead (hcontra ▸ hk)
    rw [List.foldl_cons, hset, ih (acc ++ [(x.1, f x.1 x.2)]) hnodup' hfresh',
      List.append_assoc]
    rfl

/-- **C10.** `batchSendMoodUpdates` returns a result map whose key set
(in insertion order) is exactly the key set of the input map, with one
boolean per tokenId: each input entry is recorded with the outcome of
its individual send, and when the client is not ready every outcome is
recorded as `false` rather than raised or dropped — for every input
map (with the unique keys a JavaScript `Map` guarantees). -/
theorem batchSendMoodUpdates_keys (client : HyperbridgeClient)
    (tokenMoodMap : List (ℕ × MoodAnalysis))
    (hnodup : (tokenMoodMap.map Prod.fst).Nodup) :
    (HyperbridgeClient.batchSendMoodUpdates client tokenMoodMap).map Prod.fst =
        tokenMoodMap.map Prod.fst ∧
      (∀ e ∈ tokenMoodMap,
          (e.1, HyperbridgeClient.sendMoodUpdate client e.1 e.2) ∈
            HyperbridgeClient.batchSendMoodUpdates client tokenMoodMap) ∧
      (HyperbridgeClient.isReady client = false →
          ∀ r ∈ HyperbridgeClient.batchSendMoodUpdates client tokenMoodMap,
            r.2 = false) := by
  have hb : HyperbridgeClient.batchSendMoodUpdates client tokenMoodMap =
      tokenMoodMap.map
        (fun e => (e.1, HyperbridgeClient.sendMoodUpdate client e.1 e.2)) := by
    have h := foldl_setKey_eq_append
      (fun k v => HyperbridgeClient.sendMoodUpdate client k v)
      tokenMoodMap [] hnodup (by intro k _ e he; cases he)
    simpa [HyperbridgeClient.batchSendMoodUpdates] using h
  refine ⟨?_, ?_, ?_⟩
  · rw [hb, List.map_map]
    rfl
  · intro e he
    rw [hb]
    exact List.mem_map_of_mem _ he
  · intro hready r hr
    rw [hb] at hr
    rcases List.mem_map.mp hr with ⟨e, _, rfl⟩
    have hcond : (!client.isConnected || !client.hasApi) = true := by
      simp only [HyperbridgeClient.isReady, Bool.and_eq_false_iff] at hready
      rcases hready with h | h <;> simp [h]
    simp [HyperbridgeClient.sendMoodUpdate, hcond]

/-- Witness for **C10**: two distinct token ids sent through a
disconnected client. -/
theorem batchSendMoodUpdates_keys_witness :
    (([(1, MoodAnalysis.mk "SOL" MoodState.Neutral 0 ⟨0, 0, 0, 0⟩ 0),
        (2, MoodAnalysis.mk "DOT" MoodState.Bullish 0 ⟨0, 0, 0, 0⟩ 0)].map
          Prod.fst).Nodup) ∧
      ((HyperbridgeClient.batchSendMoodUpdates ⟨false, false⟩
          [(1, MoodAnalysis.mk "SOL" MoodState.Neutral 0 ⟨0, 0, 0, 0⟩ 0),
            (2, MoodAnalysis.mk "DOT" MoodState.Bullish 0 ⟨0, 0, 0, 0⟩ 0)]).map
            Prod.fst =
          [(1, MoodAnalysis.mk "SOL" MoodState.Neutral 0 ⟨0, 0, 0, 0⟩ 0),
            (2, MoodAnalysis.mk "DOT" MoodState.Bullish 0 ⟨0, 0, 0, 0⟩ 0)].map
            Prod.fst ∧
        (∀ e ∈ [(1, MoodAnalysis.mk "SOL" MoodState.Neutral 0 ⟨0, 0, 0, 0⟩ 0),
            (2, MoodAnalysis.mk "DOT" MoodState.Bullish 0 ⟨0, 0, 0, 0⟩ 0)],
            (e.1, HyperbridgeClient.sendMoodUpdate ⟨false, false⟩ e.1 e.2) ∈
              HyperbridgeClient.batchSendMoodUpdates ⟨false, false⟩
                [(1, MoodAnalysis.mk "SOL" MoodState.Neutral 0 ⟨0, 0, 0, 0⟩ 0),
                  (2, MoodAnalysis.mk "DOT" MoodState.Bullish 0 ⟨0, 0, 0, 0⟩ 0)]) ∧
        (HyperbridgeClient.isReady ⟨false, false⟩ = false →
            ∀ r ∈ HyperbridgeClient.batchSendMoodUpdates ⟨false, false⟩
                [(1, MoodAnalysis.mk "SOL" MoodState.Neutral 0 ⟨0, 0, 0, 0⟩ 0),
                  (2, MoodAnalysis.mk "DOT" MoodState.Bullish 0 ⟨0, 0, 0, 0⟩ 0)],
              r.2 = false)) :=
  ⟨by simp, batchSendMoodUpdates_keys ⟨false, false⟩ _ (by simp)⟩

/-- **C2 (amended).** In the cycle branch where the dispatch sink is
not ready, the batch is not sent — but the PreviousMoodTable IS
updated for the warranted items exactly as it would be with a ready
sink: the table mutation happens at decision time, before the
readiness check, so the resulting table does not depend on the sink
state at all. -/
theorem runAnalysis_sink_not_ready (client client' : HyperbridgeClient)
    (inp : CycleInput) (previousMoods : List (ℕ × MoodState))
    (h : HyperbridgeClient.isReady client = false) :
    (runAnalysis client inp previousMoods).2 = [] ∧
      (runAnalysis client inp previousMoods).1 =
        (runAnalysis client' inp previousMoods).1 := by
  constructor
  · simp only [runAnalysis]
    split_ifs with h1 h2
    · exact absurd h2 (by simp [h])
    · rfl
    · rfl
  · simp only [runAnalysis]
    split_ifs <;> rfl

/-- Witness for **C2 (amended)**: a disconnected client against a
connected one on the empty cycle input. -/
theorem runAnalysis_sink_not_ready_witness :
    HyperbridgeClient.isReady ⟨false, false⟩ = false ∧
      ((runAnalysis ⟨false, false⟩ ⟨[], [], [], [], 0⟩ []).2 = [] ∧
        (runAnalysis ⟨false, false⟩ ⟨[], [], [], [], 0⟩ []).1 =
          (runAnalysis ⟨true, true⟩ ⟨[], [], [], [], 0⟩ []).1) :=
  ⟨rfl, runAnalysis_sink_not_ready ⟨false, false⟩ ⟨true, true⟩
    ⟨[], [], [], [], 0⟩ [] rfl⟩

/-- Counterexample to **C2 as stated**: one tracked token whose update
is warranted (with a ready sink it would be dispatched, and is), a
sink that is not ready so nothing is dispatched — and yet the
PreviousMoodTable entry after the cycle is the newly decided mood
`PositiveSentiment`, not the prior entry `Neutral`. -/
theorem runAnalysis_sink_not_ready_counterexample :
    (runAnalysis ⟨false, false⟩
        ⟨[(1, "SOL")], [⟨"SOL", 100, 0, 0, 0, 0, 0, 0⟩],
          [⟨"SOL", 1, 1, ⟨0, 0, 0⟩, 0⟩], [], 0⟩
        [(1, MoodState.Neutral)]).2 = [] ∧
      (runAnalysis ⟨true, true⟩
        ⟨[(1, "SOL")], [⟨"SOL", 100, 0, 0, 0, 0, 0, 0⟩],
          [⟨"SOL", 1, 1, ⟨0, 0, 0⟩, 0⟩], [], 0⟩
        [(1, MoodState.Neutral)]).2 = [(1, true)] ∧
      getKey ((runAnalysis ⟨false, false⟩
        ⟨[(1, "SOL")], [⟨"SOL", 100, 0, 0, 0, 0, 0, 0⟩],
          [⟨"SOL", 1, 1, ⟨0, 0, 0⟩, 0⟩], [], 0⟩
        [(1, MoodState.Neutral)]).1) 1 = some MoodState.PositiveSentiment ∧
      getKey [(1, MoodState.Neutral)] 1 = some MoodState.Neutral ∧
      MoodState.PositiveSentiment ≠ MoodState.Neutral := by
  have hne1 : (MoodState.Neutral = MoodState.PositiveSentiment) = False :=
    eq_false (by decide)
  have hne2 : (MoodState.PositiveSentiment = MoodState.Neutral) = False :=
    eq_false (by decide)
  norm_num [hne1, hne2, runAnalysis, analysisStep, MoodCalculator.calculateMood,
    shouldUpdate, MoodCalculator.shouldUpdateMood, setKey, getKey,
    HyperbridgeClient.isReady, HyperbridgeClient.batchSendMoodUpdates,
    HyperbridgeClient.sendMoodUpdate, List.find?]

end EchoMint
